import Mathlib

/-!
Shallow embedding of `src/main.py` of codeintel-improper-exception-handling-checker.

The program is a CLI dispatcher: it parses arguments, validates the target
path, builds a per-tool command line, runs the external tool as a subprocess,
and routes the resulting text to a report file or stdout.  Filesystem state
and subprocess behaviour are modelled by an explicit `World` record of
oracles; everything else is translated directly from the Python source.
-/

namespace Checker

/-- Characters removed by Python `str.strip()`: exactly those with
`str.isspace()` true in CPython, i.e. U+0009-U+000D, U+001C-U+001F, space,
U+0085 (NEL), U+00A0 (no-break space), U+1680, the U+2000-U+200A space
separators, U+2028, U+2029, U+202F, U+205F and U+3000. -/
def isPySpace (c : Char) : Bool :=
  let n := c.toNat
  (9 ≤ n && n ≤ 13) || (28 ≤ n && n ≤ 32) || n = 133 || n = 160 ||
  n = 5760 || (8192 ≤ n && n ≤ 8202) || n = 8232 || n = 8233 ||
  n = 8239 || n = 8287 || n = 12288

/-- Python `s.strip()`: drop leading and trailing whitespace. -/
def pyStrip (s : String) : String :=
  String.mk (((s.data.dropWhile isPySpace).reverse.dropWhile isPySpace).reverse)

/-- Worker for Python `s.split(",")`: `acc` holds the characters of the
current field in reverse. -/
def splitCommaAux : List Char → List Char → List (List Char)
  | [], acc => [acc.reverse]
  | c :: cs, acc =>
      if c = ',' then acc.reverse :: splitCommaAux cs []
      else splitCommaAux cs (c :: acc)

/-- Python `s.split(",")`: split at every comma, keeping empty fields
(so the empty string splits to `[""]`). -/
def splitComma (s : String) : List String :=
  (splitCommaAux s.data []).map String.mk

/-- Worker for Python `",".join`, on character lists. -/
def joinCommaL : List (List Char) → List Char
  | [] => []
  | [x] => x
  | x :: y :: xs => x ++ ',' :: joinCommaL (y :: xs)

/-- Python `",".join(l)`. -/
def joinComma (l : List String) : String :=
  String.mk (joinCommaL (l.map String.data))

/-- Python `sep.join(l)` for an arbitrary separator (used only to spell out
the textual form of a `CalledProcessError`). -/
def joinSep (sep : String) : List String → String
  | [] => ""
  | [x] => x
  | x :: y :: xs => x ++ sep ++ joinSep sep (y :: xs)

/-- A single-quote character, written via its code point. -/
def squote : String := String.mk [Char.ofNat 39]

/-- Python `repr` of a string, for strings with no quotes, backslashes or
non-printable characters (the only case arising in these command lines). -/
def pyStrRepr (s : String) : String := squote ++ s ++ squote

/-- Python `str` of a list of plain strings, as produced by
`"%s" % cmd` inside the `CalledProcessError` message. -/
def pyListRepr (l : List String) : String :=
  "[" ++ joinSep ", " (l.map pyStrRepr) ++ "]"

/-- The text of `str(e)` for `e : subprocess.CalledProcessError` raised by
`subprocess.run(command, ..., check=True)` on a non-zero exit status
(positive `returncode`; the signal case does not arise in this model). -/
def cpeStr (command : List String) (returncode : Nat) : String :=
  "Command " ++ squote ++ pyListRepr command ++ squote ++
    " returned non-zero exit status " ++ toString returncode ++ "."

/-- Outcome of `subprocess.run(command, capture_output=True, text=True,
check=True)` as the adapters observe it: normal return, a raised
`CalledProcessError` (non-zero exit, with captured stdout/stderr), a raised
`FileNotFoundError` carrying its `str(e)` text (executable missing), or any
other exception carrying its `str(e)` text. -/
inductive ProcOutcome where
  | success (stdout : String)
  | calledProcessError (returncode : Nat) (stdout stderr : String)
  | fileNotFoundError (msg : String)
  | otherError (msg : String)
deriving DecidableEq

/-- `exclude_list = [f"--exclude={e.strip()}" for e in exclude.split(',') if e.strip()]`
from `analyze_with_bandit` (line 83). -/
def banditExcludeArgs (exclude : String) : List String :=
  ((splitComma exclude).filter (fun e => pyStrip e != "")).map
    (fun e => "--exclude=" ++ pyStrip e)

/-- `command = ["bandit", "-r", path, "-f", "txt"] + exclude_list` (line 84). -/
def banditCommand (path exclude : String) : List String :=
  ["bandit", "-r", path, "-f", "txt"] ++ banditExcludeArgs exclude

/-- `exclude_list = [e.strip() for e in exclude.split(',') if e.strip()]`,
shared verbatim by `analyze_with_flake8` (line 109) and
`analyze_with_pylint` (line 137). -/
def normalizedExcludes (exclude : String) : List String :=
  ((splitComma exclude).filter (fun e => pyStrip e != "")).map pyStrip

/-- The flake8 command of lines 108-111: base arguments, then
`--exclude <joined>` appended only when the normalized list is non-empty. -/
def flake8Command (path exclude : String) : List String :=
  let base := ["flake8", path, "--extend-ignore=E722,B001,B028",
               "--select=E,W,F,C90", "--max-complexity=10"]
  let excl := normalizedExcludes exclude
  if excl.isEmpty then base else base ++ ["--exclude", joinComma excl]

/-- The pylint command of lines 136-139: base arguments, then
`--ignore <joined>` appended only when the normalized list is non-empty. -/
def pylintCommand (path exclude : String) : List String :=
  let base := ["pylint", path, "--disable=C0301,W0703,W0702,broad-except"]
  let excl := normalizedExcludes exclude
  if excl.isEmpty then base else base ++ ["--ignore", joinComma excl]

/-- `command = ["pyre", "analyze", path]` (line 164); the `exclude`
parameter is accepted but never used. -/
def pyreCommand (path : String) (exclude : String) : List String :=
  ["pyre", "analyze", path]

/-- `analyze_with_bandit` (lines 71-93), with the subprocess modelled by
`run`.  Every outcome returns a string; nothing escapes the adapter. -/
def analyze_with_bandit (run : List String → ProcOutcome)
    (path exclude : String) : String :=
  let command := banditCommand path exclude
  match run command with
  | .success stdout => stdout
  | .calledProcessError code _ stderr =>
      "Bandit analysis failed: " ++ cpeStr command code ++ "\n" ++ stderr
  | .fileNotFoundError msg => "Error running Bandit: " ++ msg
  | .otherError msg => "Error running Bandit: " ++ msg

/-- `analyze_with_flake8` (lines 95-121). -/
def analyze_with_flake8 (run : List String → ProcOutcome)
    (path exclude : String) : String :=
  let command := flake8Command path exclude
  match run command with
  | .success stdout => stdout
  | .calledProcessError code _ stderr =>
      "Flake8 analysis failed: " ++ cpeStr command code ++ "\n" ++ stderr
  | .fileNotFoundError msg => "Error running Flake8: " ++ msg
  | .otherError msg => "Error running Flake8: " ++ msg

/-- `analyze_with_pylint` (lines 123-148). -/
def analyze_with_pylint (run : List String → ProcOutcome)
    (path exclude : String) : String :=
  let command := pylintCommand path exclude
  match run command with
  | .success stdout => stdout
  | .calledProcessError code _ stderr =>
      "Pylint analysis failed: " ++ cpeStr command code ++ "\n" ++ stderr
  | .fileNotFoundError msg => "Error running Pylint: " ++ msg
  | .otherError msg => "Error running Pylint: " ++ msg

/-- `analyze_with_pyre` (lines 150-176): unlike the other three adapters it
catches `FileNotFoundError` before the generic handler and returns a fixed
message for it. -/
def analyze_with_pyre (run : List String → ProcOutcome)
    (path exclude : String) : String :=
  let command := pyreCommand path exclude
  match run command with
  | .success stdout => stdout
  | .calledProcessError code _ stderr =>
      "Pyre analysis failed: " ++ cpeStr command code ++ "\n" ++ stderr
  | .fileNotFoundError _ => "Pyre is not installed or not in PATH. Please install Pyre."
  | .otherError msg => "Error running Pyre: " ++ msg

/-- `check_path` (lines 55-68): true exactly when `os.path.exists` is, the
filesystem being modelled by the `pathExists` oracle. -/
def check_path (pathExists : String → Bool) (path : String) : Bool :=
  pathExists path

/-- The `choices` list of the `--tool` argument in `setup_argparse`
(line 48). -/
def toolChoices : List String := ["bandit", "flake8", "pylint", "pyre-check"]

/-- The configuration produced by `setup_argparse().parse_args()`:
positional `path`, optional `--report_file` (None when omitted),
`--exclude` (default empty string), `--tool` (default bandit). -/
structure Config where
  path : String
  report_file : Option String
  exclude : String
  tool : String
deriving DecidableEq

/-- Argument resolution as `argparse` performs it for this parser: apply the
defaults of lines 36-50 and reject a `--tool` value outside `choices`
(argparse exits with a usage error, modelled as `none`). -/
def parseArgs (path : String) (report_file exclude tool : Option String) :
    Option Config :=
  let t := tool.getD "bandit"
  if t ∈ toolChoices then some ⟨path, report_file, exclude.getD "", t⟩ else none

/-- The ambient effects `main` depends on: filesystem existence, subprocess
execution, and whether opening/writing a given report file succeeds. -/
structure World where
  pathExists : String → Bool
  run : List String → ProcOutcome
  writeOk : String → Bool

/-- Where the analysis text ended up: `print` to stdout or `f.write` to a
named file. -/
inductive Routed where
  | stdout (text : String)
  | file (name : String) (content : String)
deriving DecidableEq

/-- Observable result of one run of `main`: the process exit code, the
routed output (none when the process exits early or the write fails), and
the list of subprocess command lines invoked. -/
structure MainResult where
  exitCode : Nat
  routed : Option Routed
  calls : List (List String)
deriving DecidableEq

/-- The tool-selection chain of `main` (lines 192-202): returns the
analysis text together with the one command line the chosen adapter ran;
`none` is the final `else` branch (invalid tool). -/
def dispatchTool (run : List String → ProcOutcome)
    (tool path exclude : String) : Option (String × List String) :=
  if tool = "bandit" then
    some (analyze_with_bandit run path exclude, banditCommand path exclude)
  else if tool = "flake8" then
    some (analyze_with_flake8 run path exclude, flake8Command path exclude)
  else if tool = "pylint" then
    some (analyze_with_pylint run path exclude, pylintCommand path exclude)
  else if tool = "pyre-check" then
    some (analyze_with_pyre run path exclude, pyreCommand path exclude)
  else none

/-- Python truthiness of `args.report_file` (line 205): an absent value and
the empty string are both falsy. -/
def truthyOpt : Option String → Bool
  | none => false
  | some s => s != ""

/-- `main` (lines 179-214) over an explicit `World`.  `check_path` failure
exits 1 before any subprocess; an invalid tool exits 1 after an adapter
would have been chosen; `f.write` stores exactly the analysis text while
`print` appends a newline; a failed write exits 1. -/
def main (w : World) (cfg : Config) : MainResult :=
  if !check_path w.pathExists cfg.path then ⟨1, none, []⟩
  else
    match dispatchTool w.run cfg.tool cfg.path cfg.exclude with
    | none => ⟨1, none, []⟩
    | some (analysis_results, command) =>
      if truthyOpt cfg.report_file then
        let rf := cfg.report_file.getD ""
        if w.writeOk rf then ⟨0, some (.file rf analysis_results), [command]⟩
        else ⟨1, none, [command]⟩
      else ⟨0, some (.stdout (analysis_results ++ "\n")), [command]⟩

/-- The command line the selected adapter hands to `subprocess.run`, by tool
name (used to state claims uniformly over the four adapters). -/
def commandFor (tool path exclude : String) : List String :=
  if tool = "bandit" then banditCommand path exclude
  else if tool = "flake8" then flake8Command path exclude
  else if tool = "pylint" then pylintCommand path exclude
  else if tool = "pyre-check" then pyreCommand path exclude
  else []

/-- The tool name as it appears in the adapters' failure messages. -/
def toolFailLabel (tool : String) : String :=
  if tool = "bandit" then "Bandit"
  else if tool = "flake8" then "Flake8"
  else if tool = "pylint" then "Pylint"
  else "Pyre"

lemma string_data_eq {a b : String} (h : a.data = b.data) : a = b := by
  cases a; cases b; cases h; rfl

lemma splitCommaAux_ne_nil (cs acc : List Char) : splitCommaAux cs acc ≠ [] := by
  induction cs generalizing acc with
  | nil => simp [splitCommaAux]
  | cons c cs ih =>
      by_cases h : c = ','
      · simp [splitCommaAux, h]
      · simpa [splitCommaAux, h] using ih (c :: acc)

lemma joinCommaL_cons (x : List Char) {l : List (List Char)} (h : l ≠ []) :
    joinCommaL (x :: l) = x ++ ',' :: joinCommaL l := by
  cases l with
  | nil => exact absurd rfl h
  | cons y ys => rfl

lemma joinCommaL_splitCommaAux (cs acc : List Char) :
    joinCommaL (splitCommaAux cs acc) = acc.reverse ++ cs := by
  induction cs generalizing acc with
  | nil => simp [splitCommaAux, joinCommaL]
  | cons c cs ih =>
      by_cases h : c = ','
      · subst h
        rw [splitCommaAux, if_pos rfl,
            joinCommaL_cons _ (splitCommaAux_ne_nil cs []), ih []]
        simp
      · rw [splitCommaAux, if_neg h, ih (c :: acc)]
        simp

/-- Joining what Python split produced gives back the original string. -/
lemma joinComma_splitComma (s : String) : joinComma (splitComma s) = s := by
  apply string_data_eq
  show joinCommaL (((splitCommaAux s.data []).map String.mk).map String.data) = _
  rw [List.map_map]
  have hid : (String.data ∘ String.mk) = id := rfl
  rw [hid, List.map_id]
  simpa using joinCommaL_splitCommaAux s.data []

/-- The bandit exclude flags are the shared normalized entries, each
prefixed, in the same order. -/
lemma banditExcludeArgs_eq_map (s : String) :
    banditExcludeArgs s = (normalizedExcludes s).map (fun e => "--exclude=" ++ e) := by
  simp only [banditExcludeArgs, normalizedExcludes, List.map_map]
  rfl

lemma joinComma_three (x y z : String) :
    joinComma [x, y, z] = x ++ "," ++ y ++ "," ++ z := by
  apply string_data_eq
  show x.data ++ ',' :: (y.data ++ ',' :: z.data) = _
  have hap : ∀ a b : String, (a ++ b).data = a.data ++ b.data := fun _ _ => rfl
  have hc : (",").data = [','] := rfl
  simp [hap, hc, List.append_assoc]

/-- C3: for path `/tmp/proj`, tool flake8, exclude `tests,build`, the
constructed command starts with `flake8` and contains `--exclude` and
`tests,build` as two consecutive elements, along with the fixed
extend-ignore, select and max-complexity arguments. -/
theorem C3_flake8_scenario_command :
    (flake8Command "/tmp/proj" "tests,build").head? = some "flake8" ∧
    (flake8Command "/tmp/proj" "tests,build")[5]? = some "--exclude" ∧
    (flake8Command "/tmp/proj" "tests,build")[6]? = some "tests,build" ∧
    "--extend-ignore=E722,B001,B028" ∈ flake8Command "/tmp/proj" "tests,build" ∧
    "--select=E,W,F,C90" ∈ flake8Command "/tmp/proj" "tests,build" ∧
    "--max-complexity=10" ∈ flake8Command "/tmp/proj" "tests,build" ∧
    flake8Command "/tmp/proj" "tests,build" =
      ["flake8", "/tmp/proj", "--extend-ignore=E722,B001,B028",
       "--select=E,W,F,C90", "--max-complexity=10", "--exclude", "tests,build"] := by
  decide

/-- C4: the pyre adapter ignores the exclude list entirely: for every
exclude input the command is exactly the three elements
`pyre`, `analyze`, path, identical to the command for an empty exclude. -/
theorem C4_pyre_ignores_exclude (path exclude : String) :
    pyreCommand path exclude = ["pyre", "analyze", path] ∧
    (pyreCommand path exclude).length = 3 ∧
    pyreCommand path exclude = pyreCommand path "" :=
  ⟨rfl, rfl, rfl⟩

/-- C5: when the target path does not exist, `main` exits with status 1,
routes no output, and invokes no subprocess. -/
theorem C5_missing_path_exits_without_subprocess (w : World) (cfg : Config)
    (h : w.pathExists cfg.path = false) :
    main w cfg = ⟨1, none, []⟩ := by
  simp [main, check_path, h]

def w5 : World := ⟨fun _ => false, fun _ => .success "", fun _ => true⟩

def cfg5 : Config := ⟨"/no/such/path", none, "", "bandit"⟩

/-- Witness for C5 at a concrete world and configuration. -/
theorem C5_missing_path_witness : main w5 cfg5 = ⟨1, none, []⟩ :=
  C5_missing_path_exits_without_subprocess w5 cfg5 rfl

/-- C2: whenever the shared normalization of the exclude string yields the
three entries x, y, z, the bandit command carries one `--exclude=` flag per
entry, the flake8 command one `--exclude` flag with the comma-joined
entries, the pylint command one `--ignore` flag with the same value; and
when normalization yields nothing, flake8 and pylint omit the flag. -/
theorem C2_exclude_normalization_per_adapter
    (path s x y z : String)
    (h : normalizedExcludes s = [x, y, z]) :
    banditCommand path s = ["bandit", "-r", path, "-f", "txt",
      "--exclude=" ++ x, "--exclude=" ++ y, "--exclude=" ++ z] ∧
    flake8Command path s = ["flake8", path, "--extend-ignore=E722,B001,B028",
      "--select=E,W,F,C90", "--max-complexity=10",
      "--exclude", x ++ "," ++ y ++ "," ++ z] ∧
    pylintCommand path s = ["pylint", path,
      "--disable=C0301,W0703,W0702,broad-except",
      "--ignore", x ++ "," ++ y ++ "," ++ z] ∧
    (∀ t, normalizedExcludes t = [] →
      flake8Command path t = ["flake8", path, "--extend-ignore=E722,B001,B028",
        "--select=E,W,F,C90", "--max-complexity=10"] ∧
      pylintCommand path t = ["pylint", path,
        "--disable=C0301,W0703,W0702,broad-except"]) := by
  refine ⟨?_, ?_, ?_, ?_⟩
  · simp [banditCommand, banditExcludeArgs_eq_map, h]
  · simp [flake8Command, h, joinComma_three]
  · simp [pylintCommand, h, joinComma_three]
  · intro t ht
    exact ⟨by simp [flake8Command, ht], by simp [pylintCommand, ht]⟩

/-- Witness for C2 at the exclude string of the spec, `"a, b ,c"`. -/
theorem C2_exclude_normalization_witness :
    banditCommand "/tmp/proj" "a, b ,c" = ["bandit", "-r", "/tmp/proj", "-f", "txt",
      "--exclude=" ++ "a", "--exclude=" ++ "b", "--exclude=" ++ "c"] ∧
    flake8Command "/tmp/proj" "a, b ,c" = ["flake8", "/tmp/proj",
      "--extend-ignore=E722,B001,B028", "--select=E,W,F,C90", "--max-complexity=10",
      "--exclude", "a" ++ "," ++ "b" ++ "," ++ "c"] ∧
    pylintCommand "/tmp/proj" "a, b ,c" = ["pylint", "/tmp/proj",
      "--disable=C0301,W0703,W0702,broad-except",
      "--ignore", "a" ++ "," ++ "b" ++ "," ++ "c"] ∧
    (∀ t, normalizedExcludes t = [] →
      flake8Command "/tmp/proj" t = ["flake8", "/tmp/proj",
        "--extend-ignore=E722,B001,B028", "--select=E,W,F,C90", "--max-complexity=10"] ∧
      pylintCommand "/tmp/proj" t = ["pylint", "/tmp/proj",
        "--disable=C0301,W0703,W0702,broad-except"]) :=
  C2_exclude_normalization_per_adapter "/tmp/proj" "a, b ,c" "a" "b" "c" (by decide)

/-- C10: normalization is order-preserving — the bandit flags and the
flake8/pylint joined values list the normalized entries in input order —
and on an input whose fields are already trimmed and non-empty the joined
value is the input string unchanged. -/
theorem C10_exclude_order_and_roundtrip (path s : String) :
    banditExcludeArgs s = (normalizedExcludes s).map (fun e => "--exclude=" ++ e) ∧
    (normalizedExcludes s ≠ [] →
      flake8Command path s = ["flake8", path, "--extend-ignore=E722,B001,B028",
        "--select=E,W,F,C90", "--max-complexity=10",
        "--exclude", joinComma (normalizedExcludes s)] ∧
      pylintCommand path s = ["pylint", path,
        "--disable=C0301,W0703,W0702,broad-except",
        "--ignore", joinComma (normalizedExcludes s)]) ∧
    ((∀ e ∈ splitComma s, pyStrip e = e ∧ e ≠ "") →
      normalizedExcludes s = splitComma s ∧
      joinComma (normalizedExcludes s) = s) := by
  refine ⟨banditExcludeArgs_eq_map s, ?_, ?_⟩
  · intro h
    exact ⟨by simp [flake8Command, List.isEmpty_iff, h],
           by simp [pylintCommand, List.isEmpty_iff, h]⟩
  · intro h
    have hfil : (splitComma s).filter (fun e => pyStrip e != "") = splitComma s :=
      List.filter_eq_self.mpr (fun e he => by
        simp [(h e he).1, bne_iff_ne, (h e he).2])
    have hnorm : normalizedExcludes s = splitComma s := by
      rw [normalizedExcludes, hfil]
      exact (List.map_congr_left fun e he => (h e he).1).trans (List.map_id _)
    exact ⟨hnorm, by rw [hnorm, joinComma_splitComma]⟩

/-- Witness for C10: round trip on the already-normalized input
`"tests,build"`. -/
theorem C10_exclude_roundtrip_witness :
    normalizedExcludes "tests,build" = splitComma "tests,build" ∧
    joinComma (normalizedExcludes "tests,build") = "tests,build" :=
  (C10_exclude_order_and_roundtrip "/tmp/proj" "tests,build").2.2 (by decide)

/-- After a successful dispatch, `main` always reaches output routing and
exits 0 when file writes succeed. -/
lemma main_routes (w : World) (cfg : Config) (res : String) (cmd : List String)
    (hpath : w.pathExists cfg.path = true)
    (hd : dispatchTool w.run cfg.tool cfg.path cfg.exclude = some (res, cmd))
    (hwrite : ∀ f, w.writeOk f = true) :
    (main w cfg).exitCode = 0 ∧ (main w cfg).routed.isSome ∧
    (main w cfg).calls = [cmd] := by
  by_cases ht : truthyOpt cfg.report_file
  · simp [main, check_path, hpath, hd, ht, hwrite]
  · simp [main, check_path, hpath, hd, ht]

/-- C1: for every adapter, a non-zero exit of the external process yields
the adapter returning the failure description concatenated with the
captured stderr (no exception escapes), `main` still routes output, and the
process exit code is 0. -/
theorem C1_nonzero_exit_is_recovered
    (w : World) (cfg : Config) (code : Nat) (out err : String)
    (htool : cfg.tool ∈ toolChoices)
    (hpath : w.pathExists cfg.path = true)
    (hrun : w.run (commandFor cfg.tool cfg.path cfg.exclude) =
      .calledProcessError code out err)
    (hwrite : ∀ f, w.writeOk f = true) :
    dispatchTool w.run cfg.tool cfg.path cfg.exclude =
      some (toolFailLabel cfg.tool ++ " analysis failed: " ++
            cpeStr (commandFor cfg.tool cfg.path cfg.exclude) code ++ "\n" ++ err,
            commandFor cfg.tool cfg.path cfg.exclude) ∧
    (main w cfg).exitCode = 0 ∧
    (main w cfg).routed.isSome := by
  have hd : dispatchTool w.run cfg.tool cfg.path cfg.exclude =
      some (toolFailLabel cfg.tool ++ " analysis failed: " ++
            cpeStr (commandFor cfg.tool cfg.path cfg.exclude) code ++ "\n" ++ err,
            commandFor cfg.tool cfg.path cfg.exclude) := by
    simp only [toolChoices, List.mem_cons, List.not_mem_nil, or_false] at htool
    rcases htool with h | h | h | h <;>
      simp_all [dispatchTool, commandFor, toolFailLabel, analyze_with_bandit,
        analyze_with_flake8, analyze_with_pylint, analyze_with_pyre]
  have hm := main_routes w cfg _ _ hpath hd hwrite
  exact ⟨hd, hm.1, hm.2.1⟩

def w1 : World := ⟨fun _ => true, fun _ => .calledProcessError 1 "" "boom", fun _ => true⟩

def cfg1 : Config := ⟨"/tmp/proj", none, "", "bandit"⟩

/-- Witness for C1 at the bandit adapter with a failing subprocess. -/
theorem C1_nonzero_exit_witness :
    dispatchTool w1.run cfg1.tool cfg1.path cfg1.exclude =
      some (toolFailLabel cfg1.tool ++ " analysis failed: " ++
            cpeStr (commandFor cfg1.tool cfg1.path cfg1.exclude) 1 ++ "\n" ++ "boom",
            commandFor cfg1.tool cfg1.path cfg1.exclude) ∧
    (main w1 cfg1).exitCode = 0 ∧
    (main w1 cfg1).routed.isSome :=
  C1_nonzero_exit_is_recovered w1 cfg1 1 "" "boom" (by decide) rfl rfl (fun _ => rfl)

/-- C7: when the executable cannot be started, the pyre adapter returns its
dedicated not-installed message while bandit, flake8 and pylint return the
generic error message carrying the exception text; none of them lets the
failure escape. -/
theorem C7_executable_not_found_messages
    (run : List String → ProcOutcome) (path exclude msg : String)
    (h : ∀ c, run c = .fileNotFoundError msg) :
    analyze_with_pyre run path exclude =
      "Pyre is not installed or not in PATH. Please install Pyre." ∧
    analyze_with_bandit run path exclude = "Error running Bandit: " ++ msg ∧
    analyze_with_flake8 run path exclude = "Error running Flake8: " ++ msg ∧
    analyze_with_pylint run path exclude = "Error running Pylint: " ++ msg := by
  simp [analyze_with_pyre, analyze_with_bandit, analyze_with_flake8,
    analyze_with_pylint, h]

def runNotFound : List String → ProcOutcome :=
  fun _ => .fileNotFoundError "[Errno 2] No such file or directory"

/-- Witness for C7 with a concrete missing-executable message. -/
theorem C7_executable_not_found_witness :
    analyze_with_pyre runNotFound "/tmp/proj" "" =
      "Pyre is not installed or not in PATH. Please install Pyre." ∧
    analyze_with_bandit runNotFound "/tmp/proj" "" =
      "Error running Bandit: " ++ "[Errno 2] No such file or directory" ∧
    analyze_with_flake8 runNotFound "/tmp/proj" "" =
      "Error running Flake8: " ++ "[Errno 2] No such file or directory" ∧
    analyze_with_pylint runNotFound "/tmp/proj" "" =
      "Error running Pylint: " ++ "[Errno 2] No such file or directory" :=
  C7_executable_not_found_messages runNotFound "/tmp/proj" ""
    "[Errno 2] No such file or directory" (fun _ => rfl)

lemma dispatchTool_isSome_of_mem (run : List String → ProcOutcome)
    (tool path exclude : String) (h : tool ∈ toolChoices) :
    (dispatchTool run tool path exclude).isSome := by
  simp only [toolChoices, List.mem_cons, List.not_mem_nil, or_false] at h
  rcases h with h | h | h | h <;> subst h <;> simp [dispatchTool]

/-- C8: every configuration the argument resolver accepts carries one of
the four enumerated tool names, so the dispatch chain in `main` selects an
adapter and its final invalid-tool branch is unreachable. -/
theorem C8_parsed_tool_always_dispatches
    (path : String) (rf ex tool : Option String) (cfg : Config)
    (run : List String → ProcOutcome)
    (h : parseArgs path rf ex tool = some cfg) :
    cfg.tool ∈ toolChoices ∧
    (dispatchTool run cfg.tool cfg.path cfg.exclude).isSome := by
  by_cases hm : (tool.getD "bandit") ∈ toolChoices
  · have hcfg : cfg.tool = tool.getD "bandit" := by
      simp [parseArgs, hm] at h
      rw [← h]
    rw [hcfg]
    exact ⟨hm, dispatchTool_isSome_of_mem run _ cfg.path cfg.exclude hm⟩
  · simp [parseArgs, hm] at h

def cfg8 : Config := ⟨"/tmp/proj", none, "", "pylint"⟩

def run8 : List String → ProcOutcome := fun _ => .success ""

/-- Witness for C8 at an explicit `--tool pylint` invocation. -/
theorem C8_parsed_tool_witness :
    cfg8.tool ∈ toolChoices ∧
    (dispatchTool run8 cfg8.tool cfg8.path cfg8.exclude).isSome :=
  C8_parsed_tool_always_dispatches "/tmp/proj" none none (some "pylint") cfg8
    run8 (by decide)

/-- C9: an empty-string `--report_file` is falsy, so the result goes to
stdout with exit code 0, independently of whether a file write would have
succeeded. -/
theorem C9_empty_report_file_routes_stdout
    (w : World) (cfg : Config) (res : String) (cmd : List String)
    (hrf : cfg.report_file = some "")
    (hpath : w.pathExists cfg.path = true)
    (hd : dispatchTool w.run cfg.tool cfg.path cfg.exclude = some (res, cmd)) :
    main w cfg = ⟨0, some (.stdout (res ++ "\n")), [cmd]⟩ ∧
    (∀ wr : String → Bool,
      main ⟨w.pathExists, w.run, wr⟩ cfg =
        ⟨0, some (.stdout (res ++ "\n")), [cmd]⟩) := by
  have hmain : ∀ wr : String → Bool,
      main ⟨w.pathExists, w.run, wr⟩ cfg =
        ⟨0, some (.stdout (res ++ "\n")), [cmd]⟩ := by
    intro wr
    simp [main, check_path, hpath, hd, truthyOpt, hrf]
  exact ⟨hmain w.writeOk, hmain⟩

def w9 : World := ⟨fun _ => true, fun _ => .success "ok", fun _ => false⟩

def cfg9 : Config := ⟨"/tmp/proj", some "", "", "bandit"⟩

/-- Witness for C9: even with every file write failing, an empty
`--report_file` routes to stdout with exit code 0. -/
theorem C9_empty_report_file_witness :
    main w9 cfg9 = ⟨0, some (.stdout ("ok" ++ "\n")), [banditCommand "/tmp/proj" ""]⟩ :=
  (C9_empty_report_file_routes_stdout w9 cfg9 "ok" (banditCommand "/tmp/proj" "")
    rfl rfl (by decide)).1

def w6 : World := ⟨fun _ => true, fun _ => .success "tool output", fun _ => true⟩

def cfg6 : Config := ⟨"/tmp/proj", none, "", "bandit"⟩

def cfg6f : Config := ⟨"/tmp/proj", some "/tmp/report.txt", "", "bandit"⟩

/-- C6 counterexample: with `--report_file` omitted, the AnalysisResult is
`tool output` but stdout receives `tool output` followed by a newline
appended by `print`, so the exact result string is not what is written. -/
theorem C6_stdout_newline_counterexample :
    analyze_with_bandit w6.run cfg6.path cfg6.exclude = "tool output" ∧
    (main w6 cfg6).routed = some (.stdout "tool output\n") ∧
    (main w6 cfg6).routed ≠ some (.stdout "tool output") := by
  decide

/-- C6 (amended): a truthy, writable `--report_file` receives exactly the
AnalysisResult string, while an omitted (falsy) one routes the result to
stdout followed by the single newline that `print` appends. -/
theorem C6_output_routing_contents
    (w : World) (cfg : Config) (res : String) (cmd : List String)
    (hpath : w.pathExists cfg.path = true)
    (hd : dispatchTool w.run cfg.tool cfg.path cfg.exclude = some (res, cmd)) :
    (∀ f, cfg.report_file = some f → f ≠ "" → w.writeOk f = true →
        main w cfg = ⟨0, some (.file f res), [cmd]⟩) ∧
    (truthyOpt cfg.report_file = false →
        main w cfg = ⟨0, some (.stdout (res ++ "\n")), [cmd]⟩) := by
  constructor
  · intro f hf hne hok
    simp [main, check_path, hpath, hd, truthyOpt, hf, hne, hok, bne_iff_ne]
  · intro ht
    simp [main, check_path, hpath, hd, ht]

/-- Witness for C6 (amended): the report file receives exactly the tool
output. -/
theorem C6_output_routing_witness :
    main w6 cfg6f =
      ⟨0, some (.file "/tmp/report.txt" "tool output"),
        [banditCommand "/tmp/proj" ""]⟩ :=
  (C6_output_routing_contents w6 cfg6f "tool output" (banditCommand "/tmp/proj" "")
    rfl (by decide)).1 "/tmp/report.txt" rfl (by decide) rfl

end Checker
